import Mathlib

/-!
Verification development for the `v2` Open Service Broker client package
(orange-cloudfoundry/go-open-service-broker-client).

The Go source is embedded shallowly:

* JSON parsing/serialisation is the external `encoding/json` collaborator.
  A raw HTTP response body is therefore modelled by its parse result,
  `Option Json` (`none`: the bytes are not valid JSON).  Decoding a `Json`
  value into a Go struct follows Go's lenient semantics: unknown object keys
  are ignored, absent keys leave the zero value, a JSON `null` leaves the
  zero value, and a type mismatch is an error.  Nested shapes that no code
  path in the verified claims inspects (credential maps, volume mounts,
  endpoint elements, binding metadata) are kept as raw `Json` values.
* The syntactic JSON-validity check on identity values (`isValidJSON`, which
  in Go defers to `json.Unmarshal` into a `json.RawMessage`) is passed in as
  a `String → Bool` capability parameter.
* The HTTP transport is a function from the prepared request to a transport
  result; each operation additionally returns the list of requests it issued
  so that "no network I/O happened" is expressible.
* The per-request UUID generated by `prepareAndDo` is passed in as a
  parameter (`requestId`), since it is the one nondeterministic input.
* Machine integers: `APIVersion.order` is a Go `byte` used only through
  `>=`; it is modelled as `Nat` (no arithmetic is ever performed on it).
-/

/-- A JSON value, as produced by the `encoding/json` collaborator when it
parses a byte string.  Numbers are irrelevant to every verified claim and
are carried as integers. -/
inductive Json where
  | null : Json
  | bool (b : Bool) : Json
  | num (n : Int) : Json
  | str (s : String) : Json
  | arr (elems : List Json) : Json
  | obj (fields : List (String × Json)) : Json
deriving Repr

/-- Look up a key in a decoded JSON object.  Go's `encoding/json` lets the
last occurrence of a duplicated key win, hence `getLast?` over the matching
entries. -/
def lookupField (fields : List (String × Json)) (k : String) : Option Json :=
  ((fields.filter (fun f => f.1 = k)).getLast?).map (fun f => f.2)

/-- The string value of an object's key, when the key is present with a
string value (`brokerResponse["error"].(string)`-style type assertion). -/
def jsonStringField (fields : List (String × Json)) (k : String) : Option String :=
  match lookupField fields k with
  | some (Json.str s) => some s
  | _ => none

/-! ## Standard base64 (the `encoding/base64` `StdEncoding` collaborator)

`buildOriginatingIdentityHeaderValue` calls
`base64.StdEncoding.EncodeToString` on the UTF-8 bytes of the identity
value.  The encoding, a decoder, and their roundtrip are given here; bytes
are `Nat`s below 256. -/

def base64Alphabet : List Char :=
  "ABCDEFGHIJKLMNOPQRSTUVWXYZabcdefghijklmnopqrstuvwxyz0123456789+/".data

def b64c (n : Nat) : Char :=
  base64Alphabet.getD n '='

def b64v (c : Char) : Option Nat :=
  if 'A' ≤ c ∧ c ≤ 'Z' then some (c.toNat - 65)
  else if 'a' ≤ c ∧ c ≤ 'z' then some (c.toNat - 97 + 26)
  else if '0' ≤ c ∧ c ≤ '9' then some (c.toNat - 48 + 52)
  else if c = '+' then some 62
  else if c = '/' then some 63
  else none

def base64EncodeChunks : List Nat → List Char
  | [] => []
  | [b1] => [b64c (b1 / 4), b64c ((b1 % 4) * 16), '=', '=']
  | [b1, b2] => [b64c (b1 / 4), b64c ((b1 % 4) * 16 + b2 / 16), b64c ((b2 % 16) * 4), '=']
  | b1 :: b2 :: b3 :: rest =>
      b64c (b1 / 4) :: b64c ((b1 % 4) * 16 + b2 / 16) ::
        b64c ((b2 % 16) * 4 + b3 / 64) :: b64c (b3 % 64) :: base64EncodeChunks rest

def base64StdEncode (bs : List Nat) : String :=
  ⟨base64EncodeChunks bs⟩

def base64DecodeChunks : List Char → Option (List Nat)
  | [] => some []
  | c1 :: c2 :: c3 :: c4 :: rest =>
      (b64v c1).bind fun v1 =>
      (b64v c2).bind fun v2 =>
      if c3 = '=' ∧ c4 = '=' ∧ rest = [] then
        some [v1 * 4 + v2 / 16]
      else if c4 = '=' ∧ rest = [] then
        (b64v c3).bind fun v3 =>
          some [v1 * 4 + v2 / 16, (v2 % 16) * 16 + v3 / 4]
      else
        (b64v c3).bind fun v3 =>
        (b64v c4).bind fun v4 =>
        (base64DecodeChunks rest).map fun r =>
          (v1 * 4 + v2 / 16) :: ((v2 % 16) * 16 + v3 / 4) :: ((v3 % 4) * 64 + v4) :: r
  | _ => none

def base64StdDecode (s : String) : Option (List Nat) :=
  base64DecodeChunks s.data

theorem b64v_b64c : ∀ n < 64, b64v (b64c n) = some n := by decide

theorem b64c_ne_eq : ∀ n < 64, b64c n ≠ '=' := by decide

theorem base64_roundtrip (bs : List Nat) (h : ∀ b ∈ bs, b < 256) :
    base64DecodeChunks (base64EncodeChunks bs) = some bs := by
  induction bs using base64EncodeChunks.induct with
  | case1 => rfl
  | case2 b1 =>
      have h1 : b1 < 256 := h b1 (by simp)
      rw [base64EncodeChunks, base64DecodeChunks]
      rw [b64v_b64c _ (by omega), b64v_b64c _ (by omega)]
      simp only [Option.some_bind]
      rw [if_pos ⟨trivial, trivial, trivial⟩]
      simp only [Option.some.injEq, List.cons.injEq, and_true]
      omega
  | case3 b1 b2 =>
      have h1 : b1 < 256 := h b1 (by simp)
      have h2 : b2 < 256 := h b2 (by simp)
      rw [base64EncodeChunks, base64DecodeChunks]
      rw [b64v_b64c _ (by omega), b64v_b64c _ (by omega), b64v_b64c _ (by omega)]
      simp only [Option.some_bind]
      rw [if_neg (fun hc => b64c_ne_eq ((b2 % 16) * 4) (by omega) hc.1)]
      rw [if_pos ⟨trivial, trivial⟩]
      simp only [Option.some_bind, Option.some.injEq, List.cons.injEq, and_true]
      omega
  | case4 b1 b2 b3 rest ih =>
      have h1 : b1 < 256 := h b1 (by simp)
      have h2 : b2 < 256 := h b2 (by simp)
      have h3 : b3 < 256 := h b3 (by simp)
      have hrest : ∀ b ∈ rest, b < 256 := fun b hb => h b (by simp [hb])
      rw [base64EncodeChunks, base64DecodeChunks]
      rw [b64v_b64c _ (by omega), b64v_b64c _ (by omega), b64v_b64c _ (by omega),
        b64v_b64c _ (by omega), ih hrest]
      simp only [Option.some_bind]
      rw [if_neg (fun hc => b64c_ne_eq ((b2 % 16) * 4 + b3 / 64) (by omega) hc.1)]
      rw [if_neg (fun hc => b64c_ne_eq (b3 % 64) (by omega) hc.1)]
      simp only [Option.some_bind, Option.map_some', Option.some.injEq, List.cons.injEq]
      refine ⟨by omega, by omega, by omega, trivial⟩

/-- The UTF-8 bytes of a Go string, as `Nat`s (`[]byte(s)`). -/
def strBytes (s : String) : List Nat :=
  s.toUTF8.data.toList.map (fun b => b.toNat)

theorem strBytes_lt (s : String) : ∀ b ∈ strBytes s, b < 256 := by
  intro b hb
  simp only [strBytes, List.mem_map] at hb
  obtain ⟨u, _, rfl⟩ := hb
  exact u.toNat_lt

/-! ## version.go -/

/-- Go's `APIVersion` represents a specific version of the OSB API
(version.go). -/
structure APIVersion where
  label : String
  order : Nat
deriving Repr, DecidableEq

/-- Go's `AtLeast` returns whether the API version is greater than or equal to
the given API version (version.go): `v.order >= test.order`. -/
def APIVersion.AtLeast (v test : APIVersion) : Bool :=
  decide (v.order ≥ test.order)

/-- Go's `HeaderValue` returns the value sent in the API version header
(version.go). -/
def APIVersion.HeaderValue (v : APIVersion) : String :=
  v.label

/-- Go's `IsLessThan` (version.go): `!v.AtLeast(other)`. -/
def APIVersion.IsLessThan (v other : APIVersion) : Bool :=
  !v.AtLeast other

def internalAPIVersion2_11 : String := "2.11"
def internalAPIVersion2_12 : String := "2.12"
def internalAPIVersion2_13 : String := "2.13"
def internalAPIVersion2_14 : String := "2.14"
def internalAPIVersion2_15 : String := "2.15"
def internalAPIVersion2_16 : String := "2.16"
def internalAPIVersion2_17 : String := "2.17"

def Version2_11 : APIVersion := { label := internalAPIVersion2_11, order := 0 }
def Version2_12 : APIVersion := { label := internalAPIVersion2_12, order := 1 }
def Version2_13 : APIVersion := { label := internalAPIVersion2_13, order := 2 }
def Version2_14 : APIVersion := { label := internalAPIVersion2_14, order := 3 }
def Version2_15 : APIVersion := { label := internalAPIVersion2_15, order := 4 }
def Version2_16 : APIVersion := { label := internalAPIVersion2_16, order := 5 }
def Version2_17 : APIVersion := { label := internalAPIVersion2_17, order := 6 }

/-- Go's `LatestAPIVersion` (version.go). -/
def LatestAPIVersion : APIVersion := Version2_17

/-! ## User-facing types (types.go) -/

/-- Go's `OperationKey` is an extra identifier from the broker for asynchronous
operations (types.go): `type OperationKey string`. -/
abbrev OperationKey := String

/-- Go's `OriginatingIdentity` (types.go): identity on the platform of the user
making a request. -/
structure OriginatingIdentity where
  Platform : String
  Value : String
deriving Repr, DecidableEq

/-- Go's `BindResource` (types.go): platform resources associated with a
binding. -/
structure BindResource where
  AppGUID : Option String
  Route : Option String
deriving Repr, DecidableEq

/-- Go's `BindResource.IsNotEmpty` (bind_resource_methods.go). -/
def BindResource.IsNotEmpty (br : BindResource) : Bool :=
  (br.AppGUID.isSome && br.AppGUID.getD "" ≠ "") ||
    (br.Route.isSome && br.Route.getD "" ≠ "")

/-- Go's `BindResponse` (types.go).  `Credentials` is a `map[string]interface{}`
(`none` for a nil map); `VolumeMounts` is a `[]VolumeMount` (`none` for a
nil slice) whose elements are kept raw; `Endpoints` is a `*[]Endpoint`
whose elements are kept raw; `Metadata` is a `*BindingMetadata` kept raw. -/
structure BindResponse where
  Async : Bool := false
  Credentials : Option (List (String × Json)) := none
  SyslogDrainURL : Option String := none
  RouteServiceURL : Option String := none
  VolumeMounts : Option (List Json) := none
  Endpoints : Option (List Json) := none
  Metadata : Option Json := none
  OperationKey : Option OperationKey := none
deriving Repr

/-- Go's `RotateBindingRequest` (types.go). -/
structure RotateBindingRequest where
  InstanceID : String
  BindingID : String
  AcceptsIncomplete : Bool
  PredecessorBindingID : String
  OriginatingIdentity : Option OriginatingIdentity
deriving Repr

/-- Go's `GetInstanceRequest` (types.go). -/
structure GetInstanceRequest where
  InstanceID : String
deriving Repr

/-! ## Errors

The concrete error structs live in the repository's errors file, which is
not under src/; their field sets are fully determined by the construction
sites in client.go and rotate_binding.go and by the spec's `BrokerError`
record {httpStatus, errorCode, description, responseParseError}. -/

/-- Go's `HTTPStatusCodeError`: the error returned for broker failure responses.
`ResponseError` carries the body-parse failure (a Go `error`), modelled by
its message. -/
structure HTTPStatusCodeError where
  StatusCode : Nat
  ErrorMessage : Option String := none
  Description : Option String := none
  ResponseError : Option String := none
deriving Repr, DecidableEq

/-- The error kinds produced by the modelled code paths: required-field
validation errors, `OperationNotAllowedError` (version gate),
`HTTPStatusCodeError`, failures building the originating-identity header
(plain Go errors), and transport failures surfaced verbatim. -/
inductive OSBError where
  | requiredErr (field : String)
  | operationNotAllowed (reason : String)
  | httpStatusCode (e : HTTPStatusCodeError)
  | identityError (msg : String)
  | transport (msg : String)
deriving Repr, DecidableEq

/-- Modelled from the spec: the `required` error constructor lives in the
repository's errors file, which is not under src/.  Per §4.2 of the spec it
is a `MissingRequiredField` error naming the field, and per the tests its
message is `"<field> is required"`. -/
def required (field : String) : OSBError :=
  OSBError.requiredErr field

/-- Go's `validateRotateBindingRequest` (rotate_binding.go), including the
`required("serviceID")` it returns when `BindingID` is empty. -/
def validateRotateBindingRequest (request : RotateBindingRequest) : Option OSBError :=
  if request.InstanceID = "" then
    some (required "instanceID")
  else if request.BindingID = "" then
    some (required "serviceID")
  else if request.PredecessorBindingID = "" then
    some (required "predecessorBindingID")
  else
    none

/-! ## Client configuration and construction (client.go) -/

/-- Go's `BasicAuthConfig`: username/password credentials. -/
structure BasicAuthConfig where
  Username : String
  Password : String
deriving Repr, DecidableEq

/-- Go's `BearerConfig`: bearer-token credential. -/
structure BearerConfig where
  Token : String
deriving Repr, DecidableEq

/-- Go's `AuthConfig`: at most one of the two credential kinds may be set
(enforced by `NewClient`). -/
structure AuthConfig where
  BasicAuthConfig : Option BasicAuthConfig
  BearerConfig : Option BearerConfig
deriving Repr, DecidableEq

/-- The two facts `NewClient` reads from a caller-supplied
`crypto/tls.Config`: whether it skips verification and whether it carries a
root CA pool.  The rest of the TLS machinery is outside the protocol
core. -/
structure TLSConfig where
  InsecureSkipVerify : Bool
  hasRootCAs : Bool
deriving Repr, DecidableEq

/-- Go's `ClientConfiguration`: the settings `NewClient` consumes.  `CAData` is
the PEM byte slice, carried as bytes. -/
structure ClientConfiguration where
  Name : String
  URL : String
  APIVersion : APIVersion
  AuthConfig : Option AuthConfig
  TLSConfig : Option TLSConfig
  Insecure : Bool
  CAData : List Nat
  EnableAlphaFeatures : Bool
  Verbose : Bool
  TimeoutSeconds : Nat
deriving Repr

/-- Go's `client` (client.go): the functional implementation of the Client
interface.  The `httpClient`/`doRequestFunc` transport fields are the
external transport capability, supplied per call in this model. -/
structure Client where
  Name : String
  URL : String
  APIVersion : APIVersion
  AuthConfig : Option AuthConfig
  EnableAlphaFeatures : Bool
  Verbose : Bool
deriving Repr

/-- Go's `strings.TrimRight(s, "/")`: remove every trailing `'/'`. -/
def trimRightSlashes (s : String) : String :=
  ⟨(s.data.reverse.dropWhile (fun c => c = '/')).reverse⟩

/-- Go's `NewClient` (client.go), restricted to the decisions it makes on the
configuration: the TLS insecure/root-CA conflict check, trimming trailing
slashes off the broker URL, and the auth-configuration validity checks.
Transport construction (dialer, timeouts, proxy) is external. -/
def NewClient (config : ClientConfiguration) : Except String Client :=
  let tlsInsecure :=
    (match config.TLSConfig with
     | some t => t.InsecureSkipVerify
     | none => false) || config.Insecure
  let tlsHasRootCAs :=
    (match config.TLSConfig with
     | some t => t.hasRootCAs
     | none => false) || !config.CAData.isEmpty
  if tlsInsecure && tlsHasRootCAs then
    Except.error "Cannot specify root CAs and to skip TLS verification"
  else
    let c : Client :=
      { Name := config.Name
        URL := trimRightSlashes config.URL
        APIVersion := config.APIVersion
        AuthConfig := none
        EnableAlphaFeatures := config.EnableAlphaFeatures
        Verbose := config.Verbose }
    match config.AuthConfig with
    | none => Except.ok c
    | some a =>
      match a.BasicAuthConfig, a.BearerConfig with
      | none, none => Except.error "Non-nil AuthConfig cannot be empty"
      | some _, some _ => Except.error "Only one AuthConfig implementation must be set at a time"
      | _, _ => Except.ok { c with AuthConfig := some a }

/-! ## Header names, URL templates and query-parameter names -/

def APIVersionHeader : String := "X-Broker-API-Version"
def OriginatingIdentityHeader : String := "X-Broker-API-Originating-Identity"
def RequestIdentityheader : String := "X-Broker-API-Request-Identity"
def PollingDelayHeader : String := "Retry-After"
def contentType : String := "Content-Type"
def jsonType : String := "application/json"

/-- Go's `fmt.Sprintf(serviceInstanceURLFmt, base, instanceID)` for the format
string `"%s/v2/service_instances/%s"` (client.go). -/
def serviceInstanceURLFmt (base instanceID : String) : String :=
  base ++ "/v2/service_instances/" ++ instanceID

/-- Go's `fmt.Sprintf(bindingURLFmt, base, instanceID, bindingID)` for the
format string `"%s/v2/service_instances/%s/service_bindings/%s"`
(client.go). -/
def bindingURLFmt (base instanceID bindingID : String) : String :=
  base ++ "/v2/service_instances/" ++ instanceID ++ "/service_bindings/" ++ bindingID

/-- Modelled from the spec: the `AcceptsIncomplete` query-parameter name
constant is defined in the repository's constants file, which is not under
src/.  Per the spec's wire description it is the "accept incomplete"
boolean parameter, `"accepts_incomplete"`. -/
def AcceptsIncomplete : String := "accepts_incomplete"

/-! ## Requests, responses, transport -/

/-- The transport-level request descriptor `prepareAndDo` assembles:
method, URL, merged query parameters, marshalled JSON body and headers. -/
structure HttpRequest where
  method : String
  url : String
  params : List (String × String)
  body : Option Json
  headers : List (String × String)
deriving Repr

/-- An `*http.Response` as the core consumes it: status code plus the JSON
parse result of the body bytes (`none` when the bytes are not valid
JSON). -/
structure HttpResponse where
  statusCode : Nat
  body : Option Json
deriving Repr

/-- What the transport capability returns: a response, or an http-layer
error surfaced verbatim. -/
inductive TransportResult where
  | ok (response : HttpResponse)
  | err (msg : String)
deriving Repr

/-- The value of a header on a prepared request (`http.Header` stores one
value per `Set` key here; keys set by `prepareAndDo` are distinct). -/
def headerLookup (req : HttpRequest) (k : String) : Option String :=
  ((req.headers.filter (fun h => h.1 = k)).head?).map (fun h => h.2)

/-! ## Originating identity (client.go) -/

/-- Go's `isValidJSON` (client.go) defers to `json.Unmarshal` into a
`json.RawMessage`; the syntactic validity of a string as JSON is the
external `encoding/json` capability, passed in as `jsonOK`.  Returns the
Go function's error-or-nil result. -/
def isValidJSON (jsonOK : String → Bool) (s : String) : Option String :=
  if jsonOK s then none else some "json syntax error"

/-- Go's `buildOriginatingIdentityHeaderValue` (client.go). -/
def buildOriginatingIdentityHeaderValue (jsonOK : String → Bool) :
    Option OriginatingIdentity → Except String String
  | none => Except.ok ""
  | some i =>
    if i.Platform = "" then
      Except.error "originating identity platform must not be empty"
    else if i.Value = "" then
      Except.error "originating identity value must not be empty"
    else
      match isValidJSON jsonOK i.Value with
      | some e => Except.error ("originating identity value must be valid JSON: " ++ e)
      | none =>
        let encodedValue := base64StdEncode (strBytes i.Value)
        Except.ok (i.Platform ++ " " ++ encodedValue)

/-- Go's `validateClientVersionIsAtLeast` (client.go): an
`OperationNotAllowedError` when the client version is below `version`. -/
def validateClientVersionIsAtLeast (c : Client) (version : APIVersion) : Option OSBError :=
  if !c.APIVersion.AtLeast version then
    some (OSBError.operationNotAllowed
      ("must have API version >= " ++ version.label ++ ". Current: " ++ c.APIVersion.label))
  else
    none

/-! ## prepareAndDo (client.go) -/

/-- The version, content-type, auth and request-identity headers
`prepareAndDo` always sets, in order. -/
def prepareAndDoBaseHeaders (c : Client) (requestId : String) (hasBody : Bool) :
    List (String × String) :=
  let authHeaders : List (String × String) :=
    match c.AuthConfig with
    | some a =>
      match a.BasicAuthConfig with
      | some basicAuth =>
          [("Authorization",
            "Basic " ++ base64StdEncode (strBytes (basicAuth.Username ++ ":" ++ basicAuth.Password)))]
      | none =>
        match a.BearerConfig with
        | some bearer => [("Authorization", "Bearer " ++ bearer.Token)]
        | none => []
    | none => []
  [(APIVersionHeader, c.APIVersion.HeaderValue)]
    ++ (if hasBody then [(contentType, jsonType)] else [])
    ++ authHeaders
    ++ [(RequestIdentityheader, requestId)]

/-- The request `prepareAndDo` assembles before handing it to the
transport.  `requestId` is the UUID generated for the request-identity
header.  An error from building the originating-identity header aborts the
call before any I/O, as in the source. -/
def Client.prepareAndDo (c : Client) (jsonOK : String → Bool) (requestId : String)
    (method URL : String) (params : List (String × String)) (body : Option Json)
    (originatingIdentity : Option OriginatingIdentity) : Except OSBError HttpRequest :=
  let headers : List (String × String) := prepareAndDoBaseHeaders c requestId body.isSome
  if c.APIVersion.AtLeast Version2_13 && originatingIdentity.isSome then
    match buildOriginatingIdentityHeaderValue jsonOK originatingIdentity with
    | Except.error e => Except.error (OSBError.identityError e)
    | Except.ok headerValue =>
        Except.ok { method := method, url := URL, params := params, body := body,
                    headers := headers ++ [(OriginatingIdentityHeader, headerValue)] }
  else
    Except.ok { method := method, url := URL, params := params, body := body,
                headers := headers }

/-! ## Response unmarshalling (client.go, rotate_binding.go) -/

/-- Go's `json.Unmarshal` of a response body into a `map[string]interface{}`:
fails when the bytes are not valid JSON or the value is not an object. -/
def unmarshalToObject : Option Json → Except String (List (String × Json))
  | none => Except.error "unexpected end of JSON input"
  | some (Json.obj fs) => Except.ok fs
  | some _ => Except.error "cannot unmarshal value into map[string]interface\x7b\x7d"

/-- Decode a struct field of Go type `bool` (absent or `null`: zero value
`false`; wrong JSON type: error). -/
def decodeBoolField (fs : List (String × Json)) (k : String) : Except String Bool :=
  match lookupField fs k with
  | none => Except.ok false
  | some Json.null => Except.ok false
  | some (Json.bool b) => Except.ok b
  | some _ => Except.error ("cannot unmarshal value into field " ++ k)

/-- Decode a struct field of Go type `*string` (absent or `null`: nil). -/
def decodeOptStrField (fs : List (String × Json)) (k : String) : Except String (Option String) :=
  match lookupField fs k with
  | none => Except.ok none
  | some Json.null => Except.ok none
  | some (Json.str s) => Except.ok (some s)
  | some _ => Except.error ("cannot unmarshal value into field " ++ k)

/-- Decode a struct field holding a slice or a pointer-to-slice (absent or
`null`: nil); the element values are kept raw. -/
def decodeOptArrField (fs : List (String × Json)) (k : String) :
    Except String (Option (List Json)) :=
  match lookupField fs k with
  | none => Except.ok none
  | some Json.null => Except.ok none
  | some (Json.arr elems) => Except.ok (some elems)
  | some _ => Except.error ("cannot unmarshal value into field " ++ k)

/-- Decode a struct field of Go type `map[string]interface{}` (absent or
`null`: nil map). -/
def decodeOptObjField (fs : List (String × Json)) (k : String) :
    Except String (Option (List (String × Json))) :=
  match lookupField fs k with
  | none => Except.ok none
  | some Json.null => Except.ok none
  | some (Json.obj mfs) => Except.ok (some mfs)
  | some _ => Except.error ("cannot unmarshal value into field " ++ k)

/-- Decode a pointer-to-struct field whose contents no claim inspects; the
object is kept raw (absent or `null`: nil). -/
def decodeOptRawObjField (fs : List (String × Json)) (k : String) :
    Except String (Option Json) :=
  match lookupField fs k with
  | none => Except.ok none
  | some Json.null => Except.ok none
  | some (Json.obj mfs) => Except.ok (some (Json.obj mfs))
  | some _ => Except.error ("cannot unmarshal value into field " ++ k)

/-- Go's `c.unmarshalResponse(response, &BindResponse{})`: decode the parsed
body into a `BindResponse` following the json tags in types.go. -/
def unmarshalBindResponse : Option Json → Except String BindResponse
  | none => Except.error "unexpected end of JSON input"
  | some (Json.obj fs) => do
      let async ← decodeBoolField fs "async"
      let credentials ← decodeOptObjField fs "credentials"
      let syslogDrainURL ← decodeOptStrField fs "syslog_drain_url"
      let routeServiceURL ← decodeOptStrField fs "route_service_url"
      let volumeMounts ← decodeOptArrField fs "volume_mounts"
      let endpoints ← decodeOptArrField fs "endpoints"
      let metadata ← decodeOptRawObjField fs "metadata"
      let operation ← decodeOptStrField fs "operation"
      Except.ok { Async := async, Credentials := credentials,
                  SyslogDrainURL := syslogDrainURL, RouteServiceURL := routeServiceURL,
                  VolumeMounts := volumeMounts, Endpoints := endpoints,
                  Metadata := metadata, OperationKey := operation }
  | some _ => Except.error "cannot unmarshal value into BindResponse"

/-- Modelled from the spec: `bindSuccessResponseBody`, the accepted/created
binding body shape, is declared in the repository's bind file, which is not
under src/.  Per the spec (§4.4 accepted-response shape:
credentials/attributes plus an optional operation token) and its use in
rotate_binding.go it carries the `BindResponse` payload fields plus the
`operation` token. -/
structure bindSuccessResponseBody where
  Credentials : Option (List (String × Json)) := none
  SyslogDrainURL : Option String := none
  RouteServiceURL : Option String := none
  VolumeMounts : Option (List Json) := none
  Endpoints : Option (List Json) := none
  Metadata : Option Json := none
  Operation : Option String := none
deriving Repr

/-- Modelled from the spec: decoding of the 202 body into
`bindSuccessResponseBody` (see that structure's comment). -/
def unmarshalBindSuccessResponseBody : Option Json → Except String bindSuccessResponseBody
  | none => Except.error "unexpected end of JSON input"
  | some (Json.obj fs) => do
      let credentials ← decodeOptObjField fs "credentials"
      let syslogDrainURL ← decodeOptStrField fs "syslog_drain_url"
      let routeServiceURL ← decodeOptStrField fs "route_service_url"
      let volumeMounts ← decodeOptArrField fs "volume_mounts"
      let endpoints ← decodeOptArrField fs "endpoints"
      let metadata ← decodeOptRawObjField fs "metadata"
      let operation ← decodeOptStrField fs "operation"
      Except.ok { Credentials := credentials,
                  SyslogDrainURL := syslogDrainURL, RouteServiceURL := routeServiceURL,
                  VolumeMounts := volumeMounts, Endpoints := endpoints,
                  Metadata := metadata, Operation := operation }
  | some _ => Except.error "cannot unmarshal value into bindSuccessResponseBody"

/-- Go's `handleFailureResponse` (client.go): build the `HTTPStatusCodeError`
for a failure response.  The `Client` receiver is only used for logging in
the source. -/
def Client.handleFailureResponse (_ : Client) (response : HttpResponse) : HTTPStatusCodeError :=
  match unmarshalToObject response.body with
  | Except.error e => { StatusCode := response.statusCode, ResponseError := some e }
  | Except.ok brokerResponse =>
      { StatusCode := response.statusCode
        ErrorMessage := jsonStringField brokerResponse "error"
        Description := jsonStringField brokerResponse "description" }

/-! ## RotateBinding (rotate_binding.go) -/

/-- Go's `json.Marshal` of the internal `rotateBindingRequestBody` message
(rotate_binding.go): `{"predecessor_binding_id": <value>}`. -/
def rotateBindingRequestBody (predecessorBindingId : Option String) : Json :=
  Json.obj [("predecessor_binding_id",
    match predecessorBindingId with
    | some s => Json.str s
    | none => Json.null)]

/-- The status-code switch of `RotateBinding` (rotate_binding.go), applied
to the broker's response.  200/201: decode a `BindResponse`, scrubbing
`Endpoints` unless alpha features are enabled.  202: a failure via
`handleFailureResponse` unless the request accepted incomplete results,
else decode the `bindSuccessResponseBody` and mark the response
asynchronous.  Anything else: `handleFailureResponse`. -/
def rotateBindingResponseSwitch (c : Client) (r : RotateBindingRequest)
    (response : HttpResponse) : Except OSBError BindResponse :=
  if response.statusCode = 200 ∨ response.statusCode = 201 then
    match unmarshalBindResponse response.body with
    | Except.error e =>
        Except.error (OSBError.httpStatusCode
          { StatusCode := response.statusCode, ResponseError := some e })
    | Except.ok userResponse =>
        if !c.EnableAlphaFeatures then
          Except.ok { userResponse with Endpoints := none }
        else
          Except.ok userResponse
  else if response.statusCode = 202 then
    if !r.AcceptsIncomplete then
      Except.error (OSBError.httpStatusCode (c.handleFailureResponse response))
    else
      match unmarshalBindSuccessResponseBody response.body with
      | Except.error e =>
          Except.error (OSBError.httpStatusCode
            { StatusCode := response.statusCode, ResponseError := some e })
      | Except.ok responseBodyObj =>
          Except.ok { Async := true
                      Credentials := responseBodyObj.Credentials
                      SyslogDrainURL := responseBodyObj.SyslogDrainURL
                      RouteServiceURL := responseBodyObj.RouteServiceURL
                      VolumeMounts := responseBodyObj.VolumeMounts
                      Endpoints := responseBodyObj.Endpoints
                      Metadata := responseBodyObj.Metadata
                      OperationKey := responseBodyObj.Operation }
  else
    Except.error (OSBError.httpStatusCode (c.handleFailureResponse response))

/-- Go's `RotateBinding` (rotate_binding.go).  `doRequest` is the transport
capability; the second component is the list of requests handed to it, so
that validation failures provably perform no I/O.  The source's `fullURL`,
`params` and `requestBody` locals are inlined into the `prepareAndDo`
call. -/
def RotateBinding (c : Client) (jsonOK : String → Bool) (requestId : String)
    (r : RotateBindingRequest) (doRequest : HttpRequest → TransportResult) :
    Except OSBError BindResponse × List HttpRequest :=
  match validateRotateBindingRequest r with
  | some e => (Except.error e, [])
  | none =>
    match c.prepareAndDo jsonOK requestId "PUT"
        (bindingURLFmt c.URL r.InstanceID r.BindingID)
        (if r.AcceptsIncomplete then [(AcceptsIncomplete, "true")] else [])
        (some (rotateBindingRequestBody (some r.PredecessorBindingID)))
        r.OriginatingIdentity with
    | Except.error e => (Except.error e, [])
    | Except.ok request =>
      match doRequest request with
      | TransportResult.err msg => (Except.error (OSBError.transport msg), [request])
      | TransportResult.ok response =>
          (rotateBindingResponseSwitch c r response, [request])

/-! ## GetInstance (version-gated operation) -/

/-- Modelled from the spec: `GetInstance` is implemented in a file that is
not under src/ (only its test is).  Per the spec (§4.2: "if the operation
itself requires a minimum version higher than the active version, fail
with `OperationNotAllowed` naming the required and actual versions, before
any network I/O") and its test's expected message, it gates on API version
2.14 via `validateClientVersionIsAtLeast` and otherwise issues one GET to
the instance URL.  Response interpretation is beyond the gating claim and
the raw transport result is returned. -/
def GetInstance (c : Client) (r : GetInstanceRequest)
    (doRequest : HttpRequest → TransportResult) :
    Except OSBError TransportResult × List HttpRequest :=
  match validateClientVersionIsAtLeast c Version2_14 with
  | some e => (Except.error e, [])
  | none =>
    let request : HttpRequest :=
      { method := "GET", url := serviceInstanceURLFmt c.URL r.InstanceID,
        params := [], body := none, headers := [] }
    (Except.ok (doRequest request), [request])

/-! ## Helper lemmas -/

theorem trimRightSlashes_no_trailing (s : String) :
    (trimRightSlashes s).data.getLast? ≠ some '/' := by
  unfold trimRightSlashes
  intro h
  rw [List.getLast?_reverse] at h
  have := List.head?_dropWhile_not (fun c => c = '/') s.data.reverse
  rw [h] at this
  simp at this

theorem trimRightSlashes_decomp (s : String) :
    ∃ n, s.data = (trimRightSlashes s).data ++ List.replicate n '/' := by
  refine ⟨(s.data.reverse.takeWhile (fun c => c = '/')).length, ?_⟩
  have hsplit : s.data.reverse.takeWhile (fun c => c = '/')
      ++ s.data.reverse.dropWhile (fun c => c = '/') = s.data.reverse :=
    List.takeWhile_append_dropWhile (fun c => decide (c = '/')) s.data.reverse
  have hrep : s.data.reverse.takeWhile (fun c => c = '/')
      = List.replicate (s.data.reverse.takeWhile (fun c => c = '/')).length '/' := by
    apply List.eq_replicate_of_mem
    intro b hb
    simpa using List.mem_takeWhile_imp hb
  calc s.data = s.data.reverse.reverse := (List.reverse_reverse _).symm
    _ = (s.data.reverse.takeWhile (fun c => c = '/')
          ++ s.data.reverse.dropWhile (fun c => c = '/')).reverse := by rw [hsplit]
    _ = (s.data.reverse.dropWhile (fun c => c = '/')).reverse
          ++ (s.data.reverse.takeWhile (fun c => c = '/')).reverse := by
            rw [List.reverse_append]
    _ = (trimRightSlashes s).data
          ++ (s.data.reverse.takeWhile (fun c => c = '/')).reverse := rfl
    _ = (trimRightSlashes s).data
          ++ List.replicate (s.data.reverse.takeWhile (fun c => c = '/')).length '/' := by
            congr 1
            conv_lhs => rw [hrep]
            rw [List.reverse_replicate]

theorem prepareAndDo_ok_fields (c : Client) (jsonOK : String → Bool)
    (requestId method URL : String) (params : List (String × String)) (body : Option Json)
    (oi : Option OriginatingIdentity) (req : HttpRequest)
    (h : Client.prepareAndDo c jsonOK requestId method URL params body oi = Except.ok req) :
    req.method = method ∧ req.url = URL ∧ req.params = params ∧ req.body = body := by
  unfold Client.prepareAndDo at h
  split at h
  · cases hb : buildOriginatingIdentityHeaderValue jsonOK oi with
    | error e => rw [hb] at h; cases h
    | ok hv => rw [hb] at h; cases h; exact ⟨rfl, rfl, rfl, rfl⟩
  · cases h; exact ⟨rfl, rfl, rfl, rfl⟩

theorem prepareAndDo_ok_headers (c : Client) (jsonOK : String → Bool)
    (requestId method URL : String) (params : List (String × String)) (body : Option Json)
    (oi : Option OriginatingIdentity) (req : HttpRequest)
    (h : Client.prepareAndDo c jsonOK requestId method URL params body oi = Except.ok req) :
    if c.APIVersion.AtLeast Version2_13 && oi.isSome then
      ∃ hv, buildOriginatingIdentityHeaderValue jsonOK oi = Except.ok hv
        ∧ req.headers = prepareAndDoBaseHeaders c requestId body.isSome
            ++ [(OriginatingIdentityHeader, hv)]
    else
      req.headers = prepareAndDoBaseHeaders c requestId body.isSome := by
  unfold Client.prepareAndDo at h
  split at h <;> rename_i hguard
  · rw [if_pos hguard]
    cases hb : buildOriginatingIdentityHeaderValue jsonOK oi with
    | error e => rw [hb] at h; cases h
    | ok hv => rw [hb] at h; cases h; exact ⟨hv, rfl, rfl⟩
  · rw [if_neg hguard]
    cases h; rfl

theorem filter_OIH_baseHeaders (c : Client) (requestId : String) (hasBody : Bool) :
    (prepareAndDoBaseHeaders c requestId hasBody).filter
      (fun hkv => hkv.1 = OriginatingIdentityHeader) = [] := by
  obtain ⟨name, url, v, auth, alpha, verbose⟩ := c
  unfold prepareAndDoBaseHeaders
  rcases auth with _ | ⟨basic, bearer⟩
  · cases hasBody <;> rfl
  · rcases basic with _ | b
    · rcases bearer with _ | t
      · cases hasBody <;> rfl
      · cases hasBody <;> rfl
    · cases hasBody <;> rfl

theorem build_ok_shape (jsonOK : String → Bool) (i : OriginatingIdentity) (hv : String)
    (h : buildOriginatingIdentityHeaderValue jsonOK (some i) = Except.ok hv) :
    hv = i.Platform ++ " " ++ base64StdEncode (strBytes i.Value) := by
  simp only [buildOriginatingIdentityHeaderValue, isValidJSON] at h
  split at h
  · cases h
  · split at h
    · cases h
    · split at h
      · cases h
      · cases h; rfl

theorem NewClient_ok_fields (config : ClientConfiguration) (c : Client)
    (h : NewClient config = Except.ok c) :
    c.URL = trimRightSlashes config.URL := by
  unfold NewClient at h
  dsimp only at h
  repeat' split at h
  all_goals try cases h
  all_goals rfl

theorem rotateBinding_sent (c : Client) (jsonOK : String → Bool) (requestId : String)
    (r : RotateBindingRequest) (doRequest : HttpRequest → TransportResult) (req : HttpRequest)
    (h : (RotateBinding c jsonOK requestId r doRequest).2 = [req]) :
    validateRotateBindingRequest r = none
    ∧ Client.prepareAndDo c jsonOK requestId "PUT"
        (bindingURLFmt c.URL r.InstanceID r.BindingID)
        (if r.AcceptsIncomplete then [(AcceptsIncomplete, "true")] else [])
        (some (rotateBindingRequestBody (some r.PredecessorBindingID)))
        r.OriginatingIdentity = Except.ok req := by
  unfold RotateBinding at h
  cases hval : validateRotateBindingRequest r with
  | some e => simp only [hval] at h; simp at h
  | none =>
    simp only [hval] at h
    refine ⟨rfl, ?_⟩
    cases hprep : Client.prepareAndDo c jsonOK requestId "PUT"
        (bindingURLFmt c.URL r.InstanceID r.BindingID)
        (if r.AcceptsIncomplete then [(AcceptsIncomplete, "true")] else [])
        (some (rotateBindingRequestBody (some r.PredecessorBindingID)))
        r.OriginatingIdentity with
    | error e => simp only [hprep] at h; simp at h
    | ok request =>
      simp only [hprep] at h
      cases hdo : doRequest request with
      | err msg =>
          simp only [hdo] at h
          obtain rfl : request = req := by simpa using h
          rfl
      | ok response =>
          simp only [hdo] at h
          obtain rfl : request = req := by simpa using h
          rfl

/-! ## Concrete fixtures (mirroring the values in rotate_binding_test.go) -/

def testClient : Client :=
  { Name := "test-broker", URL := "http://broker", APIVersion := Version2_14,
    AuthConfig := none, EnableAlphaFeatures := false, Verbose := false }

def testRotateBindingRequest : RotateBindingRequest :=
  { InstanceID := "test-instance-id", BindingID := "test-binding-id",
    AcceptsIncomplete := false, PredecessorBindingID := "test-predecessor-binding-id",
    OriginatingIdentity := none }

def testOriginatingIdentityValue : String := "\x7b\"user\":\"test-user\"\x7d"

def testOriginatingIdentity : OriginatingIdentity :=
  { Platform := "testPlatform", Value := testOriginatingIdentityValue }

/-- A JSON-validity capability that accepts everything (adequate for the
syntactically valid fixtures used in the witnesses). -/
def chkTrue : String → Bool := fun _ => true

/-! ## Claims -/

/-- C10: `BindResource.IsNotEmpty` returns true iff `AppGUID` points to a
non-empty string or `Route` points to a non-empty string; it is false when
both pointers are nil or point to empty strings. -/
theorem claim_C10_isNotEmpty (br : BindResource) :
    (br.IsNotEmpty = true
      ↔ ((∃ s, br.AppGUID = some s ∧ s ≠ "") ∨ (∃ s, br.Route = some s ∧ s ≠ "")))
    ∧ BindResource.IsNotEmpty { AppGUID := none, Route := none } = false
    ∧ BindResource.IsNotEmpty { AppGUID := some "", Route := some "" } = false := by
  obtain ⟨g, rt⟩ := br
  refine ⟨?_, rfl, by simp [BindResource.IsNotEmpty]⟩
  cases g <;> cases rt <;> simp [BindResource.IsNotEmpty]

/-- C8: building the originating-identity header value fails iff the
platform is empty, the value is empty, or the value fails the JSON
syntax check; with a non-empty platform, a non-empty value and valid
JSON it succeeds with `"<platform> <base64(value)>"`. -/
theorem claim_C8_build_identity (jsonOK : String → Bool) (i : OriginatingIdentity) :
    ((∃ e, buildOriginatingIdentityHeaderValue jsonOK (some i) = Except.error e)
      ↔ (i.Platform = "" ∨ i.Value = "" ∨ jsonOK i.Value = false))
    ∧ (i.Platform ≠ "" → i.Value ≠ "" → jsonOK i.Value = true →
        buildOriginatingIdentityHeaderValue jsonOK (some i)
          = Except.ok (i.Platform ++ " " ++ base64StdEncode (strBytes i.Value))) := by
  unfold buildOriginatingIdentityHeaderValue isValidJSON
  by_cases hp : i.Platform = ""
  · simp [hp]
  · by_cases hv : i.Value = ""
    · simp [hp, hv]
    · by_cases hj : jsonOK i.Value
      · simp [hp, hv, hj]
      · simp [hp, hv, hj]

/-- C8 witness: a concrete identity with valid JSON builds successfully,
and one with an empty platform fails. -/
theorem claim_C8_witness :
    buildOriginatingIdentityHeaderValue chkTrue (some testOriginatingIdentity)
      = Except.ok ("testPlatform" ++ " " ++ base64StdEncode (strBytes testOriginatingIdentityValue))
    ∧ (∃ e, buildOriginatingIdentityHeaderValue chkTrue
        (some { Platform := "", Value := "\x7b\x7d" }) = Except.error e) :=
  ⟨(claim_C8_build_identity chkTrue testOriginatingIdentity).2 (by decide) (by decide) rfl,
    (claim_C8_build_identity chkTrue { Platform := "", Value := "\x7b\x7d" }).1.mpr (Or.inl rfl)⟩

/-- C5: `handleFailureResponse` always carries the response's HTTP status;
an unparseable body sets the parse failure in `ResponseError`; for a JSON
object body, `ErrorMessage`/`Description` are exactly the string-valued
`error`/`description` fields when present and unset otherwise. -/
theorem claim_C5_handleFailureResponse (c : Client) (response : HttpResponse) :
    (c.handleFailureResponse response).StatusCode = response.statusCode
    ∧ (response.body = none →
        (c.handleFailureResponse response).ResponseError = some "unexpected end of JSON input"
        ∧ (c.handleFailureResponse response).ErrorMessage = none
        ∧ (c.handleFailureResponse response).Description = none)
    ∧ (∀ fs, response.body = some (Json.obj fs) →
        (c.handleFailureResponse response).ErrorMessage = jsonStringField fs "error"
        ∧ (c.handleFailureResponse response).Description = jsonStringField fs "description"
        ∧ (c.handleFailureResponse response).ResponseError = none) := by
  obtain ⟨st, body⟩ := response
  cases body with
  | none =>
      exact ⟨rfl, fun _ => ⟨rfl, rfl, rfl⟩, fun fs hfs => by simp at hfs⟩
  | some j =>
      cases j <;> refine ⟨rfl, fun hb => by simp at hb, fun fs hfs => ?_⟩
      · simp at hfs
      · simp at hfs
      · simp at hfs
      · simp at hfs
      · simp at hfs
      · obtain rfl : _ = fs := by simpa using hfs
        exact ⟨rfl, rfl, rfl⟩

/-- C5 witness: a 500 response whose object body has only an `error`
field, and a 502 response with an unparseable body. -/
theorem claim_C5_witness :
    (Client.handleFailureResponse testClient
        { statusCode := 500, body := some (Json.obj [("error", Json.str "oops")]) }).ErrorMessage
      = some "oops"
    ∧ (Client.handleFailureResponse testClient
        { statusCode := 500, body := some (Json.obj [("error", Json.str "oops")]) }).Description
      = none
    ∧ (Client.handleFailureResponse testClient
        { statusCode := 502, body := none }).ResponseError
      = some "unexpected end of JSON input"
    ∧ (Client.handleFailureResponse testClient
        { statusCode := 502, body := none }).StatusCode = 502 := by
  have h1 := (claim_C5_handleFailureResponse testClient
    { statusCode := 500, body := some (Json.obj [("error", Json.str "oops")]) }).2.2
    [("error", Json.str "oops")] rfl
  have h2 := (claim_C5_handleFailureResponse testClient
    { statusCode := 502, body := none })
  exact ⟨h1.1.trans (by rfl), h1.2.1.trans (by rfl), (h2.2.1 rfl).1, h2.1⟩

/-- C6 (code bug): `validateRotateBindingRequest` names `instanceID` and
`predecessorBindingID` correctly and accepts a fully populated request,
but an empty `BindingID` produces `required("serviceID")` — a field
`RotateBindingRequest` does not even have — instead of an error naming
the binding id. -/
theorem claim_C6_validation_eval :
    validateRotateBindingRequest { testRotateBindingRequest with BindingID := "" }
      = some (required "serviceID")
    ∧ required "serviceID" ≠ required "bindingID"
    ∧ required "serviceID" ≠ required "bindingId"
    ∧ validateRotateBindingRequest { testRotateBindingRequest with InstanceID := "" }
      = some (required "instanceID")
    ∧ validateRotateBindingRequest { testRotateBindingRequest with PredecessorBindingID := "" }
      = some (required "predecessorBindingID")
    ∧ validateRotateBindingRequest testRotateBindingRequest = none
    ∧ (RotateBinding testClient chkTrue "req-id"
        { testRotateBindingRequest with BindingID := "" }
        (fun _ => TransportResult.err "transport must not be reached")).2 = []
    ∧ (RotateBinding testClient chkTrue "req-id"
        { testRotateBindingRequest with BindingID := "" }
        (fun _ => TransportResult.err "transport must not be reached")).1
      = Except.error (required "serviceID") := by
  exact ⟨rfl, by decide, by decide, rfl, rfl, rfl, rfl, rfl⟩

/-- C3 (code bug): with alpha features disabled, the 200/201 branch of
`RotateBinding` scrubs `Endpoints`, but the 202 asynchronous branch copies
the body's `endpoints` into the returned `BindResponse` unscrubbed. -/
theorem claim_C3_endpoints_leak :
    testClient.EnableAlphaFeatures = false
    ∧ (RotateBinding testClient chkTrue "req-id"
        { testRotateBindingRequest with AcceptsIncomplete := true }
        (fun _ => TransportResult.ok
          { statusCode := 202,
            body := some (Json.obj
              [("endpoints", Json.arr []), ("operation", Json.str "op")]) })).1
      = Except.ok { Async := true, Endpoints := some [], OperationKey := some "op" }
    ∧ (some [] : Option (List Json)) ≠ none
    ∧ (RotateBinding testClient chkTrue "req-id" testRotateBindingRequest
        (fun _ => TransportResult.ok
          { statusCode := 200,
            body := some (Json.obj [("endpoints", Json.arr [])]) })).1
      = Except.ok { Endpoints := none } := by
  exact ⟨rfl, by rfl, by simp, by rfl⟩

/-- C2: `AtLeast` is exactly the rank comparison;
`validateClientVersionIsAtLeast` returns the `OperationNotAllowedError`
naming the required version and the client's current version label iff
`AtLeast` fails, and no error otherwise; and the version-gated
`GetInstance` operation fails before issuing any transport request when
the gate fails. -/
theorem claim_C2_version_gate :
    (∀ v w : APIVersion, v.AtLeast w = true ↔ w.order ≤ v.order)
    ∧ (∀ (c : Client) (w : APIVersion),
        (validateClientVersionIsAtLeast c w = none ↔ c.APIVersion.AtLeast w = true)
        ∧ (validateClientVersionIsAtLeast c w
            = some (OSBError.operationNotAllowed
                ("must have API version >= " ++ w.label ++ ". Current: "
                  ++ c.APIVersion.label))
          ↔ c.APIVersion.AtLeast w = false))
    ∧ (∀ (c : Client) (r : GetInstanceRequest) (doRequest : HttpRequest → TransportResult),
        c.APIVersion.AtLeast Version2_14 = false →
          (GetInstance c r doRequest).2 = []
          ∧ (GetInstance c r doRequest).1
              = Except.error (OSBError.operationNotAllowed
                  ("must have API version >= " ++ Version2_14.label ++ ". Current: "
                    ++ c.APIVersion.label))) := by
  refine ⟨?_, ?_, ?_⟩
  · intro v w
    simp [APIVersion.AtLeast]
  · intro c w
    unfold validateClientVersionIsAtLeast
    cases hge : c.APIVersion.AtLeast w <;> simp [hge]
  · intro c r doRequest hlt
    unfold GetInstance validateClientVersionIsAtLeast
    rw [hlt]
    exact ⟨rfl, rfl⟩

/-- C2 witness: a 2.13 client fails the 2.14 gate with the expected
reason and issues no request; a 2.14 client passes the gate. -/
theorem claim_C2_witness :
    Version2_13.AtLeast Version2_14 = false
    ∧ (GetInstance { testClient with APIVersion := Version2_13 }
        { InstanceID := "test-instance-id" } (fun _ => TransportResult.err "down")).2 = []
    ∧ validateClientVersionIsAtLeast testClient Version2_14 = none := by
  refine ⟨by decide, ?_, ?_⟩
  · exact ((claim_C2_version_gate.2.2 { testClient with APIVersion := Version2_13 }
      { InstanceID := "test-instance-id" } (fun _ => TransportResult.err "down")) (by decide)).1
  · exact (claim_C2_version_gate.2.1 testClient Version2_14).1.mpr (by decide)

/-- Modelled from the spec: whether binding operations support
asynchronous handling at a protocol version.  src/ carries no such
predicate for rotate-binding: per the `BindRequest.AcceptsIncomplete`
documentation in types.go ("requires a client API version >= 2.14") and
the 2.14 version used by the asynchronous rotate-binding test,
asynchronous binding operations require at least version 2.14. -/
def rotateBindingSupportsAsyncAtVersion (v : APIVersion) : Bool :=
  v.AtLeast Version2_14

def client211 : Client := { testClient with APIVersion := Version2_11 }

/-- C7 counterexample: a 2.11 client — below every version at which
binding operations support asynchronous handling — still attaches
`accepts_incomplete=true` to the outgoing rotate-binding request whenever
the request sets `AcceptsIncomplete`; the code performs no version
check. -/
theorem claim_C7_counterexample :
    ((RotateBinding client211 chkTrue "req-id"
        { testRotateBindingRequest with AcceptsIncomplete := true }
        (fun _ => TransportResult.ok { statusCode := 200, body := some (Json.obj []) })).2.map
      HttpRequest.params)
      = [[(AcceptsIncomplete, "true")]]
    ∧ rotateBindingSupportsAsyncAtVersion client211.APIVersion = false := by
  exact ⟨by rfl, by rfl⟩

/-- C7 (amended): on every rotate-binding request that reaches the
transport, the `accepts_incomplete` query parameter is attached iff the
request's `AcceptsIncomplete` field is true — with no version condition —
and when the field is false the parameter list is empty. -/
theorem claim_C7_accepts_incomplete_param (c : Client) (jsonOK : String → Bool)
    (requestId : String) (r : RotateBindingRequest)
    (doRequest : HttpRequest → TransportResult) (req : HttpRequest)
    (h : (RotateBinding c jsonOK requestId r doRequest).2 = [req]) :
    req.params = (if r.AcceptsIncomplete then [(AcceptsIncomplete, "true")] else [])
    ∧ ((∃ v, (AcceptsIncomplete, v) ∈ req.params) ↔ r.AcceptsIncomplete = true)
    ∧ (r.AcceptsIncomplete = false → req.params = []) := by
  obtain ⟨hval, hprep⟩ := rotateBinding_sent c jsonOK requestId r doRequest req h
  obtain ⟨-, -, hparams, -⟩ := prepareAndDo_ok_fields _ _ _ _ _ _ _ _ _ hprep
  refine ⟨hparams, ?_, ?_⟩
  · rw [hparams]
    cases hacc : r.AcceptsIncomplete <;> simp
  · intro hacc
    rw [hparams]
    simp [hacc]

/-- The request a 2.14 client's asynchronous rotate-binding call hands to
the transport for the test fixtures. -/
def testAsyncRotateRequestSent : HttpRequest :=
  { method := "PUT",
    url := "http://broker/v2/service_instances/test-instance-id/service_bindings/test-binding-id",
    params := [(AcceptsIncomplete, "true")],
    body := some (rotateBindingRequestBody (some "test-predecessor-binding-id")),
    headers := [(APIVersionHeader, "2.14"), (contentType, jsonType),
                (RequestIdentityheader, "req-id")] }

/-- C7 witness: the concrete asynchronous rotate-binding call issues one
request whose query parameters are exactly `accepts_incomplete=true`. -/
theorem claim_C7_witness :
    (RotateBinding testClient chkTrue "req-id"
        { testRotateBindingRequest with AcceptsIncomplete := true }
        (fun _ => TransportResult.ok { statusCode := 200, body := some (Json.obj []) })).2
      = [testAsyncRotateRequestSent]
    ∧ testAsyncRotateRequestSent.params = [(AcceptsIncomplete, "true")]
    ∧ (∃ v, (AcceptsIncomplete, v) ∈ testAsyncRotateRequestSent.params) := by
  have h := claim_C7_accepts_incomplete_param testClient chkTrue "req-id"
    { testRotateBindingRequest with AcceptsIncomplete := true }
    (fun _ => TransportResult.ok { statusCode := 200, body := some (Json.obj []) })
    testAsyncRotateRequestSent (by rfl)
  exact ⟨by rfl, h.1.trans (by rfl), h.2.1.mpr rfl⟩

/-- C9: a client accepted by `NewClient` stores the configured URL with
every trailing `'/'` stripped, and each rotate-binding request's target
URL is the trimmed base followed by exactly the one `'/'` contributed by
the binding path template. -/
theorem claim_C9_base_url (config : ClientConfiguration) (c : Client)
    (h : NewClient config = Except.ok c) :
    c.URL.data.getLast? ≠ some '/'
    ∧ (∃ n, config.URL.data = c.URL.data ++ List.replicate n '/')
    ∧ (∀ (jsonOK : String → Bool) (requestId : String) (r : RotateBindingRequest)
        (doRequest : HttpRequest → TransportResult) (req : HttpRequest),
        (RotateBinding c jsonOK requestId r doRequest).2 = [req] →
          req.url = c.URL ++ "/" ++ "v2/service_instances/" ++ r.InstanceID
            ++ "/service_bindings/" ++ r.BindingID) := by
  have hurl := NewClient_ok_fields config c h
  refine ⟨?_, ?_, ?_⟩
  · rw [hurl]; exact trimRightSlashes_no_trailing _
  · rw [hurl]; exact trimRightSlashes_decomp _
  · intro jsonOK requestId r doRequest req htrace
    obtain ⟨-, hprep⟩ := rotateBinding_sent _ _ _ _ _ _ htrace
    obtain ⟨-, hfields, -, -⟩ := prepareAndDo_ok_fields _ _ _ _ _ _ _ _ _ hprep
    rw [hfields]
    unfold bindingURLFmt
    rw [show ("/v2/service_instances/" : String) = "/" ++ "v2/service_instances/" from rfl]
    rw [String.append_assoc c.URL "/" "v2/service_instances/"]

/-- The configuration whose broker URL carries trailing slashes that
`NewClient` strips, yielding `testClient`. -/
def testConfig : ClientConfiguration :=
  { Name := "test-broker", URL := "http://broker///", APIVersion := Version2_14,
    AuthConfig := none, TLSConfig := none, Insecure := false, CAData := [],
    EnableAlphaFeatures := false, Verbose := false, TimeoutSeconds := 60 }

/-- C9 witness: `NewClient` on the slash-suffixed URL yields the trimmed
client, whose stored URL has no trailing slash, and the concrete
rotate-binding request URL splits as base, one slash, template. -/
theorem claim_C9_witness :
    testClient.URL.data.getLast? ≠ some '/'
    ∧ (∃ n, testConfig.URL.data = testClient.URL.data ++ List.replicate n '/')
    ∧ testAsyncRotateRequestSent.url
        = testClient.URL ++ "/" ++ "v2/service_instances/" ++ "test-instance-id"
          ++ "/service_bindings/" ++ "test-binding-id" := by
  have h := claim_C9_base_url testConfig testClient (by rfl)
  refine ⟨h.1, h.2.1, ?_⟩
  have hreq := h.2.2 chkTrue "req-id" { testRotateBindingRequest with AcceptsIncomplete := true }
    (fun _ => TransportResult.ok { statusCode := 200, body := some (Json.obj []) })
    testAsyncRotateRequestSent (by rfl)
  exact hreq

/-- C4: a prepared request carries the originating-identity header iff an
identity was supplied and the client version is at least 2.13; when
present its value is the platform, a space, and the standard base64
encoding of the identity value, whose base64 decoding recovers exactly
the value's bytes. -/
theorem claim_C4_originating_identity (c : Client) (jsonOK : String → Bool)
    (requestId method URL : String) (params : List (String × String)) (body : Option Json)
    (oi : Option OriginatingIdentity) (req : HttpRequest)
    (h : Client.prepareAndDo c jsonOK requestId method URL params body oi = Except.ok req) :
    ((headerLookup req OriginatingIdentityHeader).isSome = true
      ↔ (oi.isSome = true ∧ c.APIVersion.AtLeast Version2_13 = true))
    ∧ (∀ i, oi = some i → c.APIVersion.AtLeast Version2_13 = true →
        headerLookup req OriginatingIdentityHeader
          = some (i.Platform ++ " " ++ base64StdEncode (strBytes i.Value))
        ∧ base64StdDecode (base64StdEncode (strBytes i.Value)) = some (strBytes i.Value)) := by
  have hh := prepareAndDo_ok_headers c jsonOK requestId method URL params body oi req h
  by_cases hguard : (c.APIVersion.AtLeast Version2_13 && oi.isSome) = true
  · rw [if_pos hguard] at hh
    obtain ⟨hv, hbuild, hheaders⟩ := hh
    rw [Bool.and_eq_true] at hguard
    obtain ⟨hv13, hoi⟩ := hguard
    have hlook : headerLookup req OriginatingIdentityHeader = some hv := by
      unfold headerLookup
      rw [hheaders, List.filter_append, filter_OIH_baseHeaders]
      rfl
    refine ⟨?_, ?_⟩
    · rw [hlook]
      simp [hoi, hv13]
    · intro i hoieq hv13'
      subst hoieq
      rw [build_ok_shape jsonOK i hv hbuild] at hlook
      refine ⟨hlook, ?_⟩
      show base64DecodeChunks (base64EncodeChunks (strBytes i.Value)) = some (strBytes i.Value)
      exact base64_roundtrip _ (strBytes_lt _)
  · rw [if_neg hguard] at hh
    have hlook : headerLookup req OriginatingIdentityHeader = none := by
      unfold headerLookup
      rw [hh, filter_OIH_baseHeaders]
      rfl
    refine ⟨?_, ?_⟩
    · rw [hlook]
      simp only [Option.isSome_none, Bool.false_eq_true, false_iff]
      intro hcontra
      exact hguard (by rw [Bool.and_eq_true]; exact ⟨hcontra.2, hcontra.1⟩)
    · intro i hoieq hv13'
      subst hoieq
      exact absurd (by rw [Bool.and_eq_true]; exact ⟨hv13', rfl⟩) hguard

/-- The request a 2.14 client prepares when an originating identity is
supplied (test fixtures). -/
def testIdentityRequestSent : HttpRequest :=
  { method := "PUT", url := "url", params := [], body := none,
    headers := [(APIVersionHeader, "2.14"), (RequestIdentityheader, "req-id"),
                (OriginatingIdentityHeader,
                  "testPlatform" ++ " " ++ base64StdEncode (strBytes testOriginatingIdentityValue))] }

/-- C4 witness: the concrete prepared request carries the identity header
`"testPlatform eyJ1c2VyIjoidGVzdC11c2VyIn0="`, whose second token decodes
back to the identity value's bytes. -/
theorem claim_C4_witness :
    headerLookup testIdentityRequestSent OriginatingIdentityHeader
      = some ("testPlatform" ++ " " ++ base64StdEncode (strBytes testOriginatingIdentityValue))
    ∧ base64StdDecode (base64StdEncode (strBytes testOriginatingIdentityValue))
      = some (strBytes testOriginatingIdentityValue)
    ∧ base64StdEncode (strBytes testOriginatingIdentityValue) = "eyJ1c2VyIjoidGVzdC11c2VyIn0=" := by
  have h := (claim_C4_originating_identity testClient chkTrue "req-id" "PUT" "url" [] none
    (some testOriginatingIdentity) testIdentityRequestSent (by rfl)).2
    testOriginatingIdentity rfl rfl
  exact ⟨h.1, h.2, by rfl⟩

theorem handleFailureResponse_StatusCode (c : Client) (response : HttpResponse) :
    (c.handleFailureResponse response).StatusCode = response.statusCode := by
  unfold Client.handleFailureResponse
  cases h : unmarshalToObject response.body <;> rfl

theorem handleFailureResponse_objFields (c : Client) (response : HttpResponse)
    (fs : List (String × Json)) (h : response.body = some (Json.obj fs)) :
    (c.handleFailureResponse response).ErrorMessage = jsonStringField fs "error"
    ∧ (c.handleFailureResponse response).Description = jsonStringField fs "description" := by
  unfold Client.handleFailureResponse unmarshalToObject
  rw [h]
  exact ⟨rfl, rfl⟩

/-- C1: when a validated rotate-binding call is answered 202: without
`AcceptsIncomplete` the call returns no `BindResponse` but the
`HTTPStatusCodeError` built from the response body (status 202,
error/description lifted from the body when present) — never an
asynchronous success; with `AcceptsIncomplete`, a decodable 202 body
yields a `BindResponse` with `Async` true whose `OperationKey` is the
body's operation token when one was supplied. -/
theorem claim_C1_rotate_202 (c : Client) (jsonOK : String → Bool) (requestId : String)
    (r : RotateBindingRequest) (response : HttpResponse)
    (hval : validateRotateBindingRequest r = none)
    (hst : response.statusCode = 202)
    (hsent : (RotateBinding c jsonOK requestId r (fun _ => TransportResult.ok response)).2 ≠ []) :
    (r.AcceptsIncomplete = false →
      (RotateBinding c jsonOK requestId r (fun _ => TransportResult.ok response)).1
        = Except.error (OSBError.httpStatusCode (c.handleFailureResponse response))
      ∧ (c.handleFailureResponse response).StatusCode = 202
      ∧ (∀ fs, response.body = some (Json.obj fs) →
          (c.handleFailureResponse response).ErrorMessage = jsonStringField fs "error"
          ∧ (c.handleFailureResponse response).Description = jsonStringField fs "description"))
    ∧ (r.AcceptsIncomplete = true →
      ∀ b, unmarshalBindSuccessResponseBody response.body = Except.ok b →
        (RotateBinding c jsonOK requestId r (fun _ => TransportResult.ok response)).1
          = Except.ok { Async := true, Credentials := b.Credentials,
                        SyslogDrainURL := b.SyslogDrainURL,
                        RouteServiceURL := b.RouteServiceURL,
                        VolumeMounts := b.VolumeMounts, Endpoints := b.Endpoints,
                        Metadata := b.Metadata, OperationKey := b.Operation }) := by
  unfold RotateBinding at hsent ⊢
  simp only [hval] at hsent ⊢
  cases hprep : Client.prepareAndDo c jsonOK requestId "PUT"
      (bindingURLFmt c.URL r.InstanceID r.BindingID)
      (if r.AcceptsIncomplete then [(AcceptsIncomplete, "true")] else [])
      (some (rotateBindingRequestBody (some r.PredecessorBindingID)))
      r.OriginatingIdentity with
  | error e => simp only [hprep] at hsent; exact absurd rfl hsent
  | ok request =>
    simp only [hprep] at hsent ⊢
    have hswitch :
        (r.AcceptsIncomplete = false →
          rotateBindingResponseSwitch c r response
            = Except.error (OSBError.httpStatusCode (c.handleFailureResponse response)))
        ∧ (r.AcceptsIncomplete = true →
          ∀ b, unmarshalBindSuccessResponseBody response.body = Except.ok b →
            rotateBindingResponseSwitch c r response
              = Except.ok { Async := true, Credentials := b.Credentials,
                            SyslogDrainURL := b.SyslogDrainURL,
                            RouteServiceURL := b.RouteServiceURL,
                            VolumeMounts := b.VolumeMounts, Endpoints := b.Endpoints,
                            Metadata := b.Metadata, OperationKey := b.Operation }) := by
      unfold rotateBindingResponseSwitch
      rw [hst]
      rw [if_neg (by omega)]
      rw [if_pos rfl]
      constructor
      · intro hacc
        rw [hacc]
        rfl
      · intro hacc b hb
        rw [hacc]
        simp only [Bool.not_true, Bool.false_eq_true, if_false]
        rw [hb]
    refine ⟨fun hacc => ⟨?_, ?_, ?_⟩, fun hacc b hb => ?_⟩
    · exact hswitch.1 hacc
    · rw [handleFailureResponse_StatusCode, hst]
    · intro fs hfs
      exact handleFailureResponse_objFields c response fs hfs
    · exact hswitch.2 hacc b hb

/-- The 202 response body of the asynchronous rotate test:
`{"operation": "test-operation-key"}`. -/
def testAsync202Response : HttpResponse :=
  { statusCode := 202, body := some (Json.obj [("operation", Json.str "test-operation-key")]) }

/-- C1 witness: on the concrete 202 response, the asynchronous request
yields `Async = true` with the operation key, and the synchronous request
yields the `HTTPStatusCodeError` built from the body. -/
theorem claim_C1_witness :
    (RotateBinding testClient chkTrue "req-id"
        { testRotateBindingRequest with AcceptsIncomplete := true }
        (fun _ => TransportResult.ok testAsync202Response)).1
      = Except.ok { Async := true, OperationKey := some "test-operation-key" }
    ∧ (RotateBinding testClient chkTrue "req-id" testRotateBindingRequest
        (fun _ => TransportResult.ok testAsync202Response)).1
      = Except.error (OSBError.httpStatusCode { StatusCode := 202 }) := by
  have h1 := (claim_C1_rotate_202 testClient chkTrue "req-id"
    { testRotateBindingRequest with AcceptsIncomplete := true } testAsync202Response
    rfl rfl (List.cons_ne_nil _ _)).2 rfl
    { Operation := some "test-operation-key" } rfl
  have h2 := (claim_C1_rotate_202 testClient chkTrue "req-id"
    testRotateBindingRequest testAsync202Response
    rfl rfl (List.cons_ne_nil _ _)).1 rfl
  exact ⟨h1.trans (by rfl), h2.1.trans (by rfl)⟩

/-- C10 witness: a non-empty app GUID makes `IsNotEmpty` true; two nil
pointers make it false. -/
theorem claim_C10_witness :
    BindResource.IsNotEmpty { AppGUID := some "app-guid", Route := none } = true
    ∧ BindResource.IsNotEmpty { AppGUID := none, Route := none } = false :=
  ⟨(claim_C10_isNotEmpty { AppGUID := some "app-guid", Route := none }).1.mpr
      (Or.inl ⟨"app-guid", rfl, by decide⟩),
    (claim_C10_isNotEmpty { AppGUID := some "app-guid", Route := none }).2.1⟩
